import Mathlib

/-!
Shallow embedding of the provider-configuration and dispatch core of the
`ferrisetw` crate (files `src/provider.rs` and `src/native/version_helper.rs`),
together with proofs settling the specification claims about it.

External collaborators (the `windows` crate's `Guid` parser, the PLA
name-resolution service, the OS version-verification API, the standard
library's `RwLock`, and `println!`) are modelled explicitly; each such
model carries a doc comment saying what it stands for.  Event records and
the schema-resolution context are opaque to this core, so the development
is parametric in their types `R` and `S`.
-/

set_option autoImplicit false

/-- A 128-bit GUID value, represented as the natural number obtained by
reading the hexadecimal digits of its textual form.  Models the
`windows::Guid` type used by `src/provider.rs`. -/
abbrev Guid := Nat

/-- Value of one hexadecimal digit, `none` for any other character. -/
def hexDigitVal (c : Char) : Option Nat :=
  if c.isDigit then some (c.toNat - 48)
  else if c.toNat ≥ 97 ∧ c.toNat ≤ 102 then some (c.toNat - 87)
  else if c.toNat ≥ 65 ∧ c.toNat ≤ 70 then some (c.toNat - 55)
  else none

/-- Models `windows::Guid::from(&str)`: parses a hyphenated hexadecimal GUID
string, case-insensitively, braces and hyphens ignored, into its 128-bit
value. -/
def Guid.fromString (s : String) : Guid :=
  s.data.foldl
    (fun acc c =>
      match hexDigitVal c with
      | some v => (acc * 16 + v) % 2 ^ 128
      | none => acc)
    0

/-! ### Kernel provider catalog (`kernel_providers` module of `src/provider.rs`) -/

/-- `kernel_guids::ALPC_GUID`. -/
def ALPC_GUID : String := "45d8cccd-539f-4b72-a8b7-5c683142609a"

/-- `kernel_guids::DEBUG_GUID`. -/
def DEBUG_GUID : String := "13976d09-a327-438c-950b-7f03192815c7"

/-- `kernel_guids::TCP_IP_GUID`. -/
def TCP_IP_GUID : String := "9a280ac0-c8e0-11d1-84e2-00c04fb998a2"

/-- `kernel_guids::THREAD_GUID`. -/
def THREAD_GUID : String := "3d6fa8d1-fe05-11d0-9dda-00c04fd7ba7c"

/-- `kernel_guids::DISK_IO_GUID`. -/
def DISK_IO_GUID : String := "3d6fa8d4-fe05-11d0-9dda-00c04fd7ba7c"

/-- `kernel_guids::FILE_IO_GUID`. -/
def FILE_IO_GUID : String := "90cbdc39-4a3e-11d1-84f4-0000f80464e3"

/-- `kernel_guids::PROCESS_GUID`. -/
def PROCESS_GUID : String := "3d6fa8d0-fe05-11d0-9dda-00c04fd7ba7c"

/-- `kernel_guids::REGISTRY_GUID`. -/
def REGISTRY_GUID : String := "AE53722E-C863-11d2-8659-00C04FA321A1"

/-- `kernel_guids::SPLIT_IO_GUID`. -/
def SPLIT_IO_GUID : String := "d837ca92-12b9-44a5-ad6a-3a65b3578aa8"

/-- `kernel_guids::PERF_INFO_GUID`. -/
def PERF_INFO_GUID : String := "ce1dbfb4-137e-4da6-87b0-3f59aa102cbc"

/-- `kernel_guids::PAGE_FAULT_GUID`. -/
def PAGE_FAULT_GUID : String := "3d6fa8d3-fe05-11d0-9dda-00c04fd7ba7c"

/-- `kernel_guids::IMAGE_LOAD_GUID`. -/
def IMAGE_LOAD_GUID : String := "2cb15d1d-5fc1-11d2-abe1-00a0c911f518"

/-- `kernel_flags::EVENT_TRACE_FLAG_PROCESS`. -/
def EVENT_TRACE_FLAG_PROCESS : Nat := 0x00000001

/-- `kernel_flags::EVENT_TRACE_FLAG_THREAD`. -/
def EVENT_TRACE_FLAG_THREAD : Nat := 0x00000002

/-- `kernel_flags::EVENT_TRACE_FLAG_IMAGE_LOAD`. -/
def EVENT_TRACE_FLAG_IMAGE_LOAD : Nat := 0x00000004

/-- `kernel_flags::EVENT_TRACE_FLAG_PROCESS_COUNTERS`. -/
def EVENT_TRACE_FLAG_PROCESS_COUNTERS : Nat := 0x00000008

/-- `kernel_flags::EVENT_TRACE_FLAG_CSWITCH`. -/
def EVENT_TRACE_FLAG_CSWITCH : Nat := 0x00000010

/-- `kernel_flags::EVENT_TRACE_FLAG_DPC`. -/
def EVENT_TRACE_FLAG_DPC : Nat := 0x00000020

/-- `kernel_flags::EVENT_TRACE_FLAG_INTERRUPT`. -/
def EVENT_TRACE_FLAG_INTERRUPT : Nat := 0x00000040

/-- `kernel_flags::EVENT_TRACE_FLAG_SYSTEMCALL`. -/
def EVENT_TRACE_FLAG_SYSTEMCALL : Nat := 0x00000080

/-- `kernel_flags::EVENT_TRACE_FLAG_DISK_IO`. -/
def EVENT_TRACE_FLAG_DISK_IO : Nat := 0x00000100

/-- `kernel_flags::EVENT_TRACE_FLAG_DISK_FILE_IO`. -/
def EVENT_TRACE_FLAG_DISK_FILE_IO : Nat := 0x00000200

/-- `kernel_flags::EVENT_TRACE_FLAG_DISK_IO_INIT`. -/
def EVENT_TRACE_FLAG_DISK_IO_INIT : Nat := 0x00000400

/-- `kernel_flags::EVENT_TRACE_FLAG_DISPATCHER`. -/
def EVENT_TRACE_FLAG_DISPATCHER : Nat := 0x00000800

/-- `kernel_flags::EVENT_TRACE_FLAG_MEMORY_PAGE_FAULTS`. -/
def EVENT_TRACE_FLAG_MEMORY_PAGE_FAULTS : Nat := 0x00001000

/-- `kernel_flags::EVENT_TRACE_FLAG_MEMORY_HARD_FAULTS`. -/
def EVENT_TRACE_FLAG_MEMORY_HARD_FAULTS : Nat := 0x00002000

/-- `kernel_flags::EVENT_TRACE_FLAG_VIRTUAL_ALLOC`. -/
def EVENT_TRACE_FLAG_VIRTUAL_ALLOC : Nat := 0x00004000

/-- `kernel_flags::EVENT_TRACE_FLAG_VAMAP`. -/
def EVENT_TRACE_FLAG_VAMAP : Nat := 0x00008000

/-- `kernel_flags::EVENT_TRACE_FLAG_NETWORK_TCPIP`. -/
def EVENT_TRACE_FLAG_NETWORK_TCPIP : Nat := 0x00010000

/-- `kernel_flags::EVENT_TRACE_FLAG_REGISTRY`. -/
def EVENT_TRACE_FLAG_REGISTRY : Nat := 0x00020000

/-- `kernel_flags::EVENT_TRACE_FLAG_DBGPRINT`. -/
def EVENT_TRACE_FLAG_DBGPRINT : Nat := 0x00040000

/-- `kernel_flags::EVENT_TRACE_FLAG_ALPC`. -/
def EVENT_TRACE_FLAG_ALPC : Nat := 0x00100000

/-- `kernel_flags::EVENT_TRACE_FLAG_SPLIT_IO`. -/
def EVENT_TRACE_FLAG_SPLIT_IO : Nat := 0x00200000

/-- `kernel_flags::EVENT_TRACE_FLAG_DRIVER`. -/
def EVENT_TRACE_FLAG_DRIVER : Nat := 0x00800000

/-- `kernel_flags::EVENT_TRACE_FLAG_PROFILE`. -/
def EVENT_TRACE_FLAG_PROFILE : Nat := 0x01000000

/-- `kernel_flags::EVENT_TRACE_FLAG_FILE_IO`. -/
def EVENT_TRACE_FLAG_FILE_IO : Nat := 0x02000000

/-- `kernel_flags::EVENT_TRACE_FLAG_FILE_IO_INIT`. -/
def EVENT_TRACE_FLAG_FILE_IO_INIT : Nat := 0x04000000

/-- `kernel_providers::KernelProvider`: an immutable (GUID, enable-flags)
pair describing one kernel tracing subsystem. -/
structure KernelProvider where
  guid : Guid
  flags : Nat
  deriving DecidableEq

/-- `KernelProvider::new`: parses the GUID string and stores the flags. -/
def KernelProvider.new (guid : String) (flags : Nat) : KernelProvider :=
  { guid := Guid.fromString guid, flags := flags }

/-- `kernel_providers::VIRTUAL_ALLOC_PROVIDER`. -/
def VIRTUAL_ALLOC_PROVIDER : KernelProvider :=
  KernelProvider.new PAGE_FAULT_GUID EVENT_TRACE_FLAG_VIRTUAL_ALLOC

/-- `kernel_providers::VAMAP_PROVIDER`. -/
def VAMAP_PROVIDER : KernelProvider :=
  KernelProvider.new FILE_IO_GUID EVENT_TRACE_FLAG_VAMAP

/-- `kernel_providers::THREAD_PROVIDER`. -/
def THREAD_PROVIDER : KernelProvider :=
  KernelProvider.new THREAD_GUID EVENT_TRACE_FLAG_THREAD

/-- `kernel_providers::SPLIT_IO_PROVIDER`. -/
def SPLIT_IO_PROVIDER : KernelProvider :=
  KernelProvider.new SPLIT_IO_GUID EVENT_TRACE_FLAG_SPLIT_IO

/-- `kernel_providers::SYSTEM_CALL_PROVIDER`. -/
def SYSTEM_CALL_PROVIDER : KernelProvider :=
  KernelProvider.new PERF_INFO_GUID EVENT_TRACE_FLAG_SYSTEMCALL

/-- `kernel_providers::REGISTRY_PROVIDER`. -/
def REGISTRY_PROVIDER : KernelProvider :=
  KernelProvider.new REGISTRY_GUID EVENT_TRACE_FLAG_REGISTRY

/-- `kernel_providers::PROFILE_PROVIDER`. -/
def PROFILE_PROVIDER : KernelProvider :=
  KernelProvider.new PERF_INFO_GUID EVENT_TRACE_FLAG_PROFILE

/-- `kernel_providers::PROCESS_COUNTER_PROVIDER`. -/
def PROCESS_COUNTER_PROVIDER : KernelProvider :=
  KernelProvider.new PROCESS_GUID EVENT_TRACE_FLAG_PROCESS_COUNTERS

/-- `kernel_providers::PROCESS_PROVIDER`. -/
def PROCESS_PROVIDER : KernelProvider :=
  KernelProvider.new PROCESS_GUID EVENT_TRACE_FLAG_PROCESS

/-- `kernel_providers::TCP_IP_PROVIDER`. -/
def TCP_IP_PROVIDER : KernelProvider :=
  KernelProvider.new TCP_IP_GUID EVENT_TRACE_FLAG_NETWORK_TCPIP

/-- `kernel_providers::MEMORY_PAGE_FAULT_PROVIDER`. -/
def MEMORY_PAGE_FAULT_PROVIDER : KernelProvider :=
  KernelProvider.new PAGE_FAULT_GUID EVENT_TRACE_FLAG_MEMORY_PAGE_FAULTS

/-- `kernel_providers::MEMORY_HARD_FAULT_PROVIDER`. -/
def MEMORY_HARD_FAULT_PROVIDER : KernelProvider :=
  KernelProvider.new PAGE_FAULT_GUID EVENT_TRACE_FLAG_MEMORY_HARD_FAULTS

/-- `kernel_providers::INTERRUPT_PROVIDER`. -/
def INTERRUPT_PROVIDER : KernelProvider :=
  KernelProvider.new PERF_INFO_GUID EVENT_TRACE_FLAG_INTERRUPT

/-- `kernel_providers::DRIVER_PROVIDER` (source lines 190-194): built from
`DISK_IO_GUID` and `EVENT_TRACE_FLAG_DISK_IO`. -/
def DRIVER_PROVIDER : KernelProvider :=
  KernelProvider.new DISK_IO_GUID EVENT_TRACE_FLAG_DISK_IO

/-- `kernel_providers::DPC_PROVIDER`. -/
def DPC_PROVIDER : KernelProvider :=
  KernelProvider.new PERF_INFO_GUID EVENT_TRACE_FLAG_DPC

/-- `kernel_providers::IMAGE_LOAD_PROVIDER`. -/
def IMAGE_LOAD_PROVIDER : KernelProvider :=
  KernelProvider.new IMAGE_LOAD_GUID EVENT_TRACE_FLAG_IMAGE_LOAD

/-- `kernel_providers::THREAD_DISPATCHER_PROVIDER`. -/
def THREAD_DISPATCHER_PROVIDER : KernelProvider :=
  KernelProvider.new THREAD_GUID EVENT_TRACE_FLAG_DISPATCHER

/-- `kernel_providers::FILE_INIT_IO_PROVIDER`. -/
def FILE_INIT_IO_PROVIDER : KernelProvider :=
  KernelProvider.new FILE_IO_GUID EVENT_TRACE_FLAG_FILE_IO_INIT

/-- `kernel_providers::FILE_IO_PROVIDER`. -/
def FILE_IO_PROVIDER : KernelProvider :=
  KernelProvider.new FILE_IO_GUID EVENT_TRACE_FLAG_FILE_IO

/-- `kernel_providers::DISK_IO_INIT_PROVIDER`. -/
def DISK_IO_INIT_PROVIDER : KernelProvider :=
  KernelProvider.new DISK_IO_GUID EVENT_TRACE_FLAG_DISK_IO_INIT

/-- `kernel_providers::DISK_IO_PROVIDER` (source lines 223-227): built from
`DISK_IO_GUID` and `EVENT_TRACE_FLAG_DISK_IO`. -/
def DISK_IO_PROVIDER : KernelProvider :=
  KernelProvider.new DISK_IO_GUID EVENT_TRACE_FLAG_DISK_IO

/-- `kernel_providers::DISK_FILE_IO_PROVIDER`. -/
def DISK_FILE_IO_PROVIDER : KernelProvider :=
  KernelProvider.new DISK_IO_GUID EVENT_TRACE_FLAG_DISK_FILE_IO

/-- `kernel_providers::DEBUG_PRINT_PROVIDER`. -/
def DEBUG_PRINT_PROVIDER : KernelProvider :=
  KernelProvider.new DEBUG_GUID EVENT_TRACE_FLAG_DBGPRINT

/-- `kernel_providers::CONTEXT_SWITCH_PROVIDER`. -/
def CONTEXT_SWITCH_PROVIDER : KernelProvider :=
  KernelProvider.new THREAD_GUID EVENT_TRACE_FLAG_CSWITCH

/-- `kernel_providers::ALPC_PROVIDER`. -/
def ALPC_PROVIDER : KernelProvider :=
  KernelProvider.new ALPC_GUID EVENT_TRACE_FLAG_ALPC

/-- The catalog as a name-keyed list: every static `KernelProvider` of the
`kernel_providers` module, keyed by its source identifier. -/
def kernelProviderCatalog : List (String × KernelProvider) :=
  [("VIRTUAL_ALLOC_PROVIDER", VIRTUAL_ALLOC_PROVIDER),
   ("VAMAP_PROVIDER", VAMAP_PROVIDER),
   ("THREAD_PROVIDER", THREAD_PROVIDER),
   ("SPLIT_IO_PROVIDER", SPLIT_IO_PROVIDER),
   ("SYSTEM_CALL_PROVIDER", SYSTEM_CALL_PROVIDER),
   ("REGISTRY_PROVIDER", REGISTRY_PROVIDER),
   ("PROFILE_PROVIDER", PROFILE_PROVIDER),
   ("PROCESS_COUNTER_PROVIDER", PROCESS_COUNTER_PROVIDER),
   ("PROCESS_PROVIDER", PROCESS_PROVIDER),
   ("TCP_IP_PROVIDER", TCP_IP_PROVIDER),
   ("MEMORY_PAGE_FAULT_PROVIDER", MEMORY_PAGE_FAULT_PROVIDER),
   ("MEMORY_HARD_FAULT_PROVIDER", MEMORY_HARD_FAULT_PROVIDER),
   ("INTERRUPT_PROVIDER", INTERRUPT_PROVIDER),
   ("DRIVER_PROVIDER", DRIVER_PROVIDER),
   ("DPC_PROVIDER", DPC_PROVIDER),
   ("IMAGE_LOAD_PROVIDER", IMAGE_LOAD_PROVIDER),
   ("THREAD_DISPATCHER_PROVIDER", THREAD_DISPATCHER_PROVIDER),
   ("FILE_INIT_IO_PROVIDER", FILE_INIT_IO_PROVIDER),
   ("FILE_IO_PROVIDER", FILE_IO_PROVIDER),
   ("DISK_IO_INIT_PROVIDER", DISK_IO_INIT_PROVIDER),
   ("DISK_IO_PROVIDER", DISK_IO_PROVIDER),
   ("DISK_FILE_IO_PROVIDER", DISK_FILE_IO_PROVIDER),
   ("DEBUG_PRINT_PROVIDER", DEBUG_PRINT_PROVIDER),
   ("CONTEXT_SWITCH_PROVIDER", CONTEXT_SWITCH_PROVIDER),
   ("ALPC_PROVIDER", ALPC_PROVIDER)]

/-! ### Provider builder and dispatch (`src/provider.rs`) -/

/-- Models `pla::PlaError`, the error of the external name-resolution
collaborator (its module is not part of this core); carried as its debug
text. -/
abbrev PlaError := String

/-- `ProviderError` (source lines 12-22). -/
inductive ProviderError where
  | NoGuid : ProviderError
  | ComProvider : PlaError → ProviderError
  | IoError : String → ProviderError
  deriving DecidableEq

/-- The two acquisition modes of a reader/writer lock. -/
inductive LockMode where
  | read : LockMode
  | write : LockMode
  deriving DecidableEq

/-- Modelled from the spec: the reader/writer discipline of
`std::sync::RwLock` lets two acquisitions be held simultaneously exactly
when both are read acquisitions. -/
def LockMode.compatible : LockMode → LockMode → Bool
  | LockMode.read, LockMode.read => true
  | _, _ => false

/-- Models `std::sync::RwLock`: the guarded value together with its poison
flag (set when a panic unwound while the lock was held). -/
structure RwLock (α : Type) where
  value : α
  poisoned : Bool

/-- Models lock acquisition (`RwLock::read` / `RwLock::write`): both return
`Err` exactly when the lock is poisoned, otherwise they yield the guarded
value.  The mode records which acquisition the caller asked for. -/
def RwLock.acquire {α : Type} (_mode : LockMode) (l : RwLock α) : Except Unit α :=
  if l.poisoned then Except.error () else Except.ok l.value

/-- The acquisition mode `Provider::on_event` uses: source line 489 calls
`self.callbacks.write()`. -/
def onEventLockMode : LockMode := LockMode.write

/-- The acquisition mode `Provider::add_callback` uses: source line 447
calls `self.callbacks.write()`. -/
def addCallbackLockMode : LockMode := LockMode.write

/-- The debug text of a panic payload.  A callback of the source can
terminate normally (returning the updated schema locator) or panic. -/
abbrev PanicPayload := String

/-- One registered consumer callback.  `R` is the opaque event-record type
and `S` the opaque schema-resolution context; `id` identifies the callback
so invocations can be traced.  A terminating call returns the updated
context; `Except.error` models a panic inside the callback. -/
structure Callback (R S : Type) where
  id : Nat
  f : R → S → Except PanicPayload S

/-- One observed consumer invocation: which callback ran and with which
event record. -/
structure Invocation (R : Type) where
  id : Nat
  record : R
  deriving DecidableEq

/-- `Provider` (source lines 246-266). -/
structure Provider (R S : Type) where
  guid : Option Guid
  any : Nat
  all : Nat
  level : Nat
  trace_flags : Nat
  flags : Nat
  callbacks : RwLock (List (Callback R S))

/-- `Provider::new` (source lines 283-293). -/
def Provider.new (R S : Type) : Provider R S :=
  { guid := none, any := 0, all := 0, level := 5, trace_flags := 0,
    flags := 0, callbacks := { value := [], poisoned := false } }

/-- `Provider::kernel` (source lines 304-314). -/
def Provider.kernel (R S : Type) (kernel_provider : KernelProvider) : Provider R S :=
  { guid := some kernel_provider.guid, any := 0, all := 0, level := 5,
    trace_flags := 0, flags := kernel_provider.flags,
    callbacks := { value := [], poisoned := false } }

/-- `Provider::by_guid` (source lines 325-328). -/
def Provider.by_guid {R S : Type} (p : Provider R S) (guid : String) : Provider R S :=
  { p with guid := some (Guid.fromString guid) }

/-- `Provider::by_name` (source lines 348-359).  The outcome of the external
`pla::get_provider_guid` lookup is a parameter.  On success the resolved
GUID is stored; on failure the error is printed (`println!`, modelled as the
second component: the list of printed lines) and the GUID is set to `none`.
The function always returns the provider itself; its type has no error
channel. -/
def Provider.by_name {R S : Type} (p : Provider R S) (lookup : Except PlaError Guid) :
    Provider R S × List String :=
  match lookup with
  | Except.ok res => ({ p with guid := some res }, [])
  | Except.error err => ({ p with guid := none }, [err])

/-- `Provider::any` (source lines 371-374). -/
def Provider.anyKeyword {R S : Type} (p : Provider R S) (any : Nat) : Provider R S :=
  { p with any := any }

/-- `Provider::all` (source lines 386-389). -/
def Provider.allKeyword {R S : Type} (p : Provider R S) (all : Nat) : Provider R S :=
  { p with all := all }

/-- `Provider::level` (source lines 406-409). -/
def Provider.setLevel {R S : Type} (p : Provider R S) (level : Nat) : Provider R S :=
  { p with level := level }

/-- `Provider::trace_flags` (source lines 421-424). -/
def Provider.setTraceFlags {R S : Type} (p : Provider R S) (trace_flag : Nat) : Provider R S :=
  { p with trace_flags := trace_flag }

/-- `Provider::add_callback` (source lines 443-451): acquire the write lock
on the callback list; if that succeeds, push the callback at the end; if it
fails (poisoned lock), do nothing.  Either way return `self`. -/
def Provider.add_callback {R S : Type} (p : Provider R S) (callback : Callback R S) :
    Provider R S :=
  match RwLock.acquire addCallbackLockMode p.callbacks with
  | Except.ok callbacks =>
      { p with callbacks := { value := callbacks ++ [callback],
                              poisoned := p.callbacks.poisoned } }
  | Except.error _ => p

/-- `Provider::build` (source lines 477-482): fail with `NoGuid` when no
GUID is set, otherwise return the provider unchanged. -/
def Provider.build {R S : Type} (p : Provider R S) : Except ProviderError (Provider R S) :=
  if p.guid.isNone then Except.error ProviderError.NoGuid else Except.ok p

/-- Runs the body of the `for_each` of `Provider::on_event` on a callback
list: each callback is applied, in list order, to the record and the
current schema-locator state; the state produced by one callback is the
state the next one receives.  A panic stops the traversal and propagates.
The second component is the trace of performed invocations. -/
def runCallbacks {R S : Type} (cbs : List (Callback R S)) (record : R) (locator : S) :
    Except PanicPayload S × List (Invocation R) :=
  match cbs with
  | [] => (Except.ok locator, [])
  | cb :: rest =>
      match cb.f record locator with
      | Except.ok locator2 =>
          let res := runCallbacks rest record locator2
          (res.1, { id := cb.id, record := record } :: res.2)
      | Except.error e => (Except.error e, [{ id := cb.id, record := record }])

/-- `Provider::on_event` (source lines 484-492): acquire the write lock on
the callback list; if that succeeds, run every callback on the record and
the locator via `for_each`; if it fails (poisoned lock), do nothing.  The
result is the final locator state (or the propagated panic) together with
the trace of invocations. -/
def Provider.on_event {R S : Type} (p : Provider R S) (record : R) (locator : S) :
    Except PanicPayload S × List (Invocation R) :=
  match RwLock.acquire onEventLockMode p.callbacks with
  | Except.ok callbacks => runCallbacks callbacks record locator
  | Except.error _ => (Except.ok locator, [])

/-- The configuration calls of claim C7: keyword, level and trace-flag
setters and `add_callback`. -/
inductive ConfigOp (R S : Type) where
  | anyKeyword : Nat → ConfigOp R S
  | allKeyword : Nat → ConfigOp R S
  | setLevel : Nat → ConfigOp R S
  | setTraceFlags : Nat → ConfigOp R S
  | addCallback : Callback R S → ConfigOp R S

/-- Applies one configuration call to a provider. -/
def applyConfigOp {R S : Type} (p : Provider R S) : ConfigOp R S → Provider R S
  | ConfigOp.anyKeyword v => p.anyKeyword v
  | ConfigOp.allKeyword v => p.allKeyword v
  | ConfigOp.setLevel v => p.setLevel v
  | ConfigOp.setTraceFlags v => p.setTraceFlags v
  | ConfigOp.addCallback cb => p.add_callback cb

/-- Applies a sequence of configuration calls, left to right. -/
def applyConfigOps {R S : Type} (p : Provider R S) (ops : List (ConfigOp R S)) : Provider R S :=
  ops.foldl applyConfigOp p

/-! ### Version gate (`src/native/version_helper.rs`) -/

/-- `VersionHelperError` (source lines 12-16); the IO error is carried as
its debug text. -/
inductive VersionHelperError where
  | IoError : String → VersionHelperError
  deriving DecidableEq

/-- The debug text `println!("{:?}", err)` prints for a version-helper
error. -/
def VersionHelperError.debugText : VersionHelperError → String
  | VersionHelperError.IoError msg => msg

/-- Models `OSVERSIONINFOEXA` restricted to the fields the source touches
or the verification reads. -/
structure OsVersionInfo where
  dwOSVersionInfoSize : Nat
  dwMajorVersion : Nat
  dwMinorVersion : Nat
  wServicePackMajor : Nat
  deriving DecidableEq

/-- `OSVERSIONINFOEXA::default()`: every field zeroed. -/
def OsVersionInfo.default : OsVersionInfo :=
  { dwOSVersionInfoSize := 0, dwMajorVersion := 0, dwMinorVersion := 0,
    wServicePackMajor := 0 }

/-- The version components the source compares. -/
inductive VersionComponent where
  | majorVersion : VersionComponent
  | minorVersion : VersionComponent
  | servicePackMajor : VersionComponent
  deriving DecidableEq

/-- The comparison predicates of a condition mask.  Only
`VER_GREATER_EQUAL`, the one comparison the source uses, is modelled. -/
inductive VerCondition where
  | greaterEqual : VerCondition
  deriving DecidableEq

/-- Evaluates one comparison predicate on (live value, requested value). -/
def VerCondition.eval : VerCondition → Nat → Nat → Bool
  | VerCondition.greaterEqual, live, requested => decide (live ≥ requested)

/-- `VER_GREATER_OR_EQUAL` (source line 30). -/
def VER_GREATER_OR_EQUAL : VerCondition := VerCondition.greaterEqual

/-- Modelled from the spec: the composed condition mask built by
`VerSetConditionMask` — at most one comparison predicate per version
component. -/
structure VerConditionMask where
  major : Option VerCondition
  minor : Option VerCondition
  spMajor : Option VerCondition
  deriving DecidableEq

/-- The empty condition mask (`let mut condition_mask = 0`). -/
def VerConditionMask.empty : VerConditionMask :=
  { major := none, minor := none, spMajor := none }

/-- Models `VerSetConditionMask`: records the comparison predicate for one
version component in the mask. -/
def VerSetConditionMask (mask : VerConditionMask) (component : VersionComponent)
    (cond : VerCondition) : VerConditionMask :=
  match component with
  | VersionComponent.majorVersion => { mask with major := some cond }
  | VersionComponent.minorVersion => { mask with minor := some cond }
  | VersionComponent.servicePackMajor => { mask with spMajor := some cond }

/-- Modelled from the spec: the OS verification primitive
(`VerifyVersionInfoA`) evaluates the composed predicate against the live OS
version block — for each component listed in the type mask, the mask's
comparison for that component is applied to the live value and the
requested value, and the results are conjoined.  A component without a
recorded comparison contributes nothing. -/
def VerifyVersionInfo (live : OsVersionInfo) (requested : OsVersionInfo)
    (typeMask : List VersionComponent) (mask : VerConditionMask) : Bool :=
  typeMask.all fun component =>
    match component with
    | VersionComponent.majorVersion =>
        match mask.major with
        | some c => c.eval live.dwMajorVersion requested.dwMajorVersion
        | none => true
    | VersionComponent.minorVersion =>
        match mask.minor with
        | some c => c.eval live.dwMinorVersion requested.dwMinorVersion
        | none => true
    | VersionComponent.servicePackMajor =>
        match mask.spMajor with
        | some c => c.eval live.wServicePackMajor requested.wServicePackMajor
        | none => true

/-- `verify_system_version` (source lines 32-65).  The live OS version
block the verification API reads is a parameter.  The requested block is
built exactly as the source builds it: starting from the zeroed default,
the source assigns `dwMajorVersion` twice — first `major`, then `minor` —
and never assigns `dwMinorVersion`, which therefore keeps its default of
0.  The result is always `Ok`, as in the source. -/
def verify_system_version (live : OsVersionInfo) (major : Nat) (minor : Nat)
    (sp_major : Nat) : Except VersionHelperError Bool :=
  let os_version := OsVersionInfo.default
  let os_version := { os_version with dwOSVersionInfoSize := 284 }
  let os_version := { os_version with dwMajorVersion := major }
  let os_version := { os_version with dwMajorVersion := minor }
  let os_version := { os_version with wServicePackMajor := sp_major }
  let condition_mask := VerConditionMask.empty
  let condition_mask :=
    VerSetConditionMask condition_mask VersionComponent.majorVersion VER_GREATER_OR_EQUAL
  let condition_mask :=
    VerSetConditionMask condition_mask VersionComponent.minorVersion VER_GREATER_OR_EQUAL
  let condition_mask :=
    VerSetConditionMask condition_mask VersionComponent.servicePackMajor VER_GREATER_OR_EQUAL
  Except.ok
    (VerifyVersionInfo live os_version
      [VersionComponent.majorVersion, VersionComponent.minorVersion,
       VersionComponent.servicePackMajor]
      condition_mask)

/-- What the spec says `verify_system_version` computes: each of the three
greater-than-or-equal predicates evaluated against the live OS version
using exactly the requested `major`, `minor` and `sp_major` values. -/
def verify_system_version_specModel (live : OsVersionInfo) (major : Nat) (minor : Nat)
    (sp_major : Nat) : Bool :=
  decide (live.dwMajorVersion ≥ major) && decide (live.dwMinorVersion ≥ minor) &&
    decide (live.wServicePackMajor ≥ sp_major)

/-- `is_win8_or_greater` (source lines 70-81).  The outcome of the
`verify_system_version(6, 2, 0)` call is a parameter so that the error arm
can be examined.  On `Ok(res)` the result is `res`; on `Err(err)` the error
is printed (`println!`, modelled as the second component: the list of
printed lines) and the result is `true`.  The return type is a plain
boolean: no error value reaches the caller. -/
def is_win8_or_greater (res : Except VersionHelperError Bool) : Bool × List String :=
  match res with
  | Except.ok r => (r, [])
  | Except.error err => (true, [err.debugText])

/-- `is_win8_or_greater` composed with the actual call the source makes:
`verify_system_version(6, 2, 0)` against the live OS version block. -/
def is_win8_or_greater_live (live : OsVersionInfo) : Bool × List String :=
  is_win8_or_greater (verify_system_version live 6 2 0)

/-- The schema-locator state after one callback invocation that terminates
normally; a panicking callback leaves the state unchanged.  Used only to
state the fold describing the threaded locator state — under the totality
hypotheses of the theorems below the panic arm is never taken. -/
def Callback.runOk {R S : Type} (cb : Callback R S) (record : R) (l : S) : S :=
  match cb.f record l with
  | Except.ok l2 => l2
  | Except.error _ => l

/-- Concrete consumer for witnesses: increments the locator. -/
def witnessCb0 : Callback Nat Nat := { id := 0, f := fun _ l => Except.ok (l + 1) }

/-- Concrete consumer for witnesses: adds the record to the locator. -/
def witnessCb1 : Callback Nat Nat := { id := 1, f := fun r l => Except.ok (l + r) }

/-- A provider with the two witness consumers registered, in order. -/
def witnessProvider : Provider Nat Nat :=
  ((Provider.new Nat Nat).add_callback witnessCb0).add_callback witnessCb1

/-- Concrete consumer that always panics. -/
def panickingCb : Callback Nat Nat := { id := 0, f := fun _ _ => Except.error "boom" }

/-- Concrete well-behaved consumer registered after the panicking one. -/
def secondCb : Callback Nat Nat := { id := 1, f := fun _ l => Except.ok (l + 1) }

/-- A provider whose first registered consumer panics and whose second is
well-behaved. -/
def panicProvider : Provider Nat Nat :=
  ((Provider.new Nat Nat).add_callback panickingCb).add_callback secondCb

/-- A provider whose callback-list lock is poisoned. -/
def poisonedProvider : Provider Nat Nat :=
  { Provider.new Nat Nat with callbacks := { value := [], poisoned := true } }

/-! ### Helper lemmas -/

/-- Acquiring an unpoisoned lock yields the guarded value. -/
theorem RwLock.acquire_of_not_poisoned {α : Type} (mode : LockMode) (l : RwLock α)
    (h : l.poisoned = false) : RwLock.acquire mode l = Except.ok l.value := by
  simp [RwLock.acquire, h]

/-- Unfolding `runCallbacks` on the empty list. -/
theorem runCallbacks_nil {R S : Type} (record : R) (locator : S) :
    runCallbacks ([] : List (Callback R S)) record locator = (Except.ok locator, []) := rfl

/-- Unfolding `runCallbacks` on a callback that terminates normally. -/
theorem runCallbacks_cons_ok {R S : Type} (record : R) (locator locator2 : S)
    (cb : Callback R S) (rest : List (Callback R S))
    (h : cb.f record locator = Except.ok locator2) :
    runCallbacks (cb :: rest) record locator =
      ((runCallbacks rest record locator2).1,
       { id := cb.id, record := record } :: (runCallbacks rest record locator2).2) := by
  have hstep :
      runCallbacks (cb :: rest) record locator =
        (match cb.f record locator with
         | Except.ok l2 =>
             ((runCallbacks rest record l2).1,
              { id := cb.id, record := record } :: (runCallbacks rest record l2).2)
         | Except.error e => (Except.error e, [{ id := cb.id, record := record }])) := rfl
  rw [hstep, h]

/-- Unfolding `runCallbacks` on a panicking callback. -/
theorem runCallbacks_cons_error {R S : Type} (record : R) (locator : S) (e : PanicPayload)
    (cb : Callback R S) (rest : List (Callback R S))
    (h : cb.f record locator = Except.error e) :
    runCallbacks (cb :: rest) record locator =
      (Except.error e, [{ id := cb.id, record := record }]) := by
  have hstep :
      runCallbacks (cb :: rest) record locator =
        (match cb.f record locator with
         | Except.ok l2 =>
             ((runCallbacks rest record l2).1,
              { id := cb.id, record := record } :: (runCallbacks rest record l2).2)
         | Except.error e2 => (Except.error e2, [{ id := cb.id, record := record }])) := rfl
  rw [hstep, h]

theorem runCallbacks_append_total {R S : Type} (record : R) (pre rest : List (Callback R S))
    (locator : S) (hpre : ∀ cb ∈ pre, ∀ l, (cb.f record l).isOk = true) :
    runCallbacks (pre ++ rest) record locator =
      ((runCallbacks rest record
          (pre.foldl (fun l cb => Callback.runOk cb record l) locator)).1,
       (pre.map fun cb => { id := cb.id, record := record }) ++
         (runCallbacks rest record
           (pre.foldl (fun l cb => Callback.runOk cb record l) locator)).2) := by
  induction pre generalizing locator with
  | nil => simp
  | cons cb pre ih =>
    have hcb := hpre cb (List.mem_cons_self cb pre) locator
    cases h : cb.f record locator with
    | ok locator2 =>
        have ihh := ih locator2 (fun c hc l => hpre c (List.mem_cons_of_mem cb hc) l)
        rw [List.cons_append, runCallbacks_cons_ok record locator locator2 cb (pre ++ rest) h,
          ihh]
        simp only [List.foldl_cons, List.map_cons]
        have hrun : Callback.runOk cb record locator = locator2 := by
          have hr2 : Callback.runOk cb record locator =
              (match cb.f record locator with
               | Except.ok l2 => l2
               | Except.error _ => locator) := rfl
          rw [hr2, h]
        rw [hrun, List.cons_append]
    | error e => rw [h] at hcb; simp [Except.isOk, Except.toBool] at hcb

/-- Running a list of callbacks that all terminate normally on the given
record: no panic, the locator is folded through all of them, and every
callback is invoked exactly once, in list order, on that record. -/
theorem runCallbacks_total {R S : Type} (record : R) (cbs : List (Callback R S))
    (locator : S) (ht : ∀ cb ∈ cbs, ∀ l, (cb.f record l).isOk = true) :
    runCallbacks cbs record locator =
      (Except.ok (cbs.foldl (fun l cb => Callback.runOk cb record l) locator),
       cbs.map fun cb => { id := cb.id, record := record }) := by
  have h := runCallbacks_append_total record cbs [] locator ht
  simpa [runCallbacks] using h

/-- Each configuration call of `ConfigOp` leaves `guid` and `flags`
unchanged. -/
theorem applyConfigOp_preserves {R S : Type} (p : Provider R S) (op : ConfigOp R S) :
    (applyConfigOp p op).guid = p.guid ∧ (applyConfigOp p op).flags = p.flags := by
  cases op with
  | anyKeyword v => exact ⟨rfl, rfl⟩
  | allKeyword v => exact ⟨rfl, rfl⟩
  | setLevel v => exact ⟨rfl, rfl⟩
  | setTraceFlags v => exact ⟨rfl, rfl⟩
  | addCallback cb =>
      simp only [applyConfigOp, Provider.add_callback]
      cases RwLock.acquire addCallbackLockMode p.callbacks with
      | ok cbs => exact ⟨rfl, rfl⟩
      | error e => exact ⟨rfl, rfl⟩

/-- A sequence of configuration calls leaves `guid` and `flags`
unchanged. -/
theorem applyConfigOps_preserves {R S : Type} (ops : List (ConfigOp R S)) (p : Provider R S) :
    (applyConfigOps p ops).guid = p.guid ∧ (applyConfigOps p ops).flags = p.flags := by
  induction ops generalizing p with
  | nil => exact ⟨rfl, rfl⟩
  | cons op rest ih =>
      have h1 := applyConfigOp_preserves p op
      have h2 := ih (applyConfigOp p op)
      simp only [applyConfigOps, List.foldl_cons] at h2 ⊢
      exact ⟨h2.1.trans h1.1, h2.2.trans h1.2⟩

/-! ### Claim theorems -/

/-- C1: `Provider::build` returns the `NoGuid` (missing identity) error if
and only if the provider's GUID is unset; whenever a GUID is set, `build`
returns `Ok` with the provider unchanged — no validation other than
identity presence is performed. -/
theorem build_missing_identity_iff {R S : Type} (p : Provider R S) :
    (p.build = Except.error ProviderError.NoGuid ↔ p.guid = none) ∧
    ∀ g : Guid, p.guid = some g → p.build = Except.ok p := by
  constructor
  · cases hg : p.guid with
    | none => simp [Provider.build, hg]
    | some g => simp [Provider.build, hg]
  · intro g hg
    simp [Provider.build, hg]

/-- Witness for C1: a provider whose GUID was set by `by_guid` builds
successfully. -/
theorem build_missing_identity_iff_witness :
    ((Provider.new Nat Nat).by_guid "22fb2cd6-0e7b-422b-a0c7-2fad1fd0e716").build
      = Except.ok ((Provider.new Nat Nat).by_guid "22fb2cd6-0e7b-422b-a0c7-2fad1fd0e716") :=
  (build_missing_identity_iff
      ((Provider.new Nat Nat).by_guid "22fb2cd6-0e7b-422b-a0c7-2fad1fd0e716")).2
    (Guid.fromString "22fb2cd6-0e7b-422b-a0c7-2fad1fd0e716") rfl

/-- C3 counterexample: a failing name lookup is NOT surfaced as an error.
Starting from a provider that even had a GUID bound, `by_name` with a
failed lookup returns the builder normally — its return carries no error
value, the identity is left unset (`guid = none`), and the failure shows up
only as a printed log line.  This is exactly the downgrade the claim says
never happens. -/
theorem by_name_failure_counterexample :
    ((Provider.new Nat Nat).by_guid "22fb2cd6-0e7b-422b-a0c7-2fad1fd0e716").by_name
        (Except.error "lookup failed")
      = (Provider.new Nat Nat, ["lookup failed"]) ∧
    (((Provider.new Nat Nat).by_guid "22fb2cd6-0e7b-422b-a0c7-2fad1fd0e716").by_name
        (Except.error "lookup failed")).1.guid = none :=
  ⟨rfl, rfl⟩

/-- C3 amended: when the name-based lookup fails, `by_name` prints the
error (`println!`) and leaves the identity unset, returning the builder
normally; no explicit error value is surfaced to the caller (the return
type has no error channel).  On success the resolved GUID is bound. -/
theorem by_name_failure_logs_and_clears {R S : Type} (p : Provider R S) (err : PlaError) :
    p.by_name (Except.error err) = ({ p with guid := none }, [err]) ∧
    ∀ g : Guid, p.by_name (Except.ok g) = ({ p with guid := some g }, []) :=
  ⟨rfl, fun _ => rfl⟩

/-- C4 counterexample: when the OS version-verification call reports an
error, `is_win8_or_greater` answers `true` ("compatible") after printing
the error — the error value does not reach the caller. -/
theorem is_win8_defaults_true_counterexample :
    is_win8_or_greater (Except.error (VersionHelperError.IoError "os api failure"))
      = (true, ["os api failure"]) := rfl

/-- C4 amended: on a verification-API error, `is_win8_or_greater` prints
the error and defaults to `true` ("compatible"); its return type is a plain
boolean, so no failure value carrying the OS error is ever returned.  On a
successful verification it returns the verification's boolean. -/
theorem is_win8_or_greater_error_behavior (err : VersionHelperError) :
    is_win8_or_greater (Except.error err) = (true, [err.debugText]) ∧
    ∀ b : Bool, is_win8_or_greater (Except.ok b) = (b, []) :=
  ⟨rfl, fun _ => rfl⟩

/-- C5: `verify_system_version` does not evaluate the composed predicate
using the requested major value.  The source assigns `dwMajorVersion`
twice — first `major`, then `minor` — and never assigns `dwMinorVersion`,
so (first conjunct) the requested `major` has no effect at all on the
result, and (remaining conjuncts) on a live OS reporting version 6.1 SP0
the call `verify_system_version(6, 2, 0)` answers `Ok(true)` although the
spec's per-component greater-or-equal predicate on (6, 2, 0) is false
there. -/
theorem verify_system_version_ignores_major :
    (∀ (live : OsVersionInfo) (major1 major2 minor sp : Nat),
       verify_system_version live major1 minor sp
         = verify_system_version live major2 minor sp) ∧
    verify_system_version
        { dwOSVersionInfoSize := 284, dwMajorVersion := 6, dwMinorVersion := 1,
          wServicePackMajor := 0 } 6 2 0
      = Except.ok true ∧
    verify_system_version_specModel
        { dwOSVersionInfoSize := 284, dwMajorVersion := 6, dwMinorVersion := 1,
          wServicePackMajor := 0 } 6 2 0
      = false :=
  ⟨fun _ _ _ _ _ => rfl, rfl, rfl⟩

/-- C6: the kernel provider catalog violates the claimed distinctness of
(GUID, enable-flag) pairs: `DRIVER_PROVIDER` and `DISK_IO_PROVIDER` are two
different named catalog entries built from the identical pair
(`DISK_IO_GUID`, `EVENT_TRACE_FLAG_DISK_IO`), while the dedicated
`EVENT_TRACE_FLAG_DRIVER` bit is declared and used by no catalog entry.
The benign half of the claim does hold elsewhere: `PROFILE_PROVIDER` and
`SYSTEM_CALL_PROVIDER` share one GUID with distinct flags. -/
theorem driver_disk_io_duplicate_pair :
    ("DRIVER_PROVIDER", DRIVER_PROVIDER) ∈ kernelProviderCatalog ∧
    ("DISK_IO_PROVIDER", DISK_IO_PROVIDER) ∈ kernelProviderCatalog ∧
    ("DRIVER_PROVIDER" : String) ≠ "DISK_IO_PROVIDER" ∧
    DRIVER_PROVIDER.guid = DISK_IO_PROVIDER.guid ∧
    DRIVER_PROVIDER.flags = DISK_IO_PROVIDER.flags ∧
    DRIVER_PROVIDER.flags = EVENT_TRACE_FLAG_DISK_IO ∧
    EVENT_TRACE_FLAG_DRIVER ≠ EVENT_TRACE_FLAG_DISK_IO ∧
    (∀ entry ∈ kernelProviderCatalog, entry.1 = "DRIVER_PROVIDER" → entry.2.flags ≠ EVENT_TRACE_FLAG_DRIVER) ∧
    PROFILE_PROVIDER.guid = SYSTEM_CALL_PROVIDER.guid ∧
    PROFILE_PROVIDER.flags ≠ SYSTEM_CALL_PROVIDER.flags := by
  refine ⟨by decide, by decide, by decide, rfl, rfl, rfl, by decide, by decide, rfl, by decide⟩

/-- With an unpoisoned lock, `on_event` runs exactly the registered
callback list. -/
theorem on_event_not_poisoned {R S : Type} (p : Provider R S) (record : R) (locator : S)
    (hp : p.callbacks.poisoned = false) :
    p.on_event record locator = runCallbacks p.callbacks.value record locator := by
  unfold Provider.on_event
  rw [RwLock.acquire_of_not_poisoned onEventLockMode p.callbacks hp]

/-- C2: one call to `on_event` on a provider with N registered consumers
(lock healthy, no consumer panicking on this record) invokes each consumer
exactly once, in registration order — the invocation trace is exactly the
registered list, each entry paired with the same event record — and the
single schema-resolution context is threaded through the consumers: the
final state is the left fold of the consumers over the initial locator. -/
theorem on_event_invokes_each_once {R S : Type} (p : Provider R S) (record : R) (locator : S)
    (hp : p.callbacks.poisoned = false)
    (ht : ∀ cb ∈ p.callbacks.value, ∀ l, (cb.f record l).isOk = true) :
    p.on_event record locator =
      (Except.ok (p.callbacks.value.foldl (fun l cb => Callback.runOk cb record l) locator),
       p.callbacks.value.map fun cb => { id := cb.id, record := record }) := by
  rw [on_event_not_poisoned p record locator hp]
  exact runCallbacks_total record p.callbacks.value locator ht

/-- Witness for C2: a provider with two consumers delivers one record to
both, in registration order, threading the locator (10 → 11 → 18). -/
theorem on_event_invokes_each_once_witness :
    witnessProvider.on_event 7 10 =
      (Except.ok 18, [{ id := 0, record := 7 }, { id := 1, record := 7 }]) := by
  have ht : ∀ cb ∈ witnessProvider.callbacks.value, ∀ l : Nat, (cb.f 7 l).isOk = true := by
    intro cb hcb l
    have hv : witnessProvider.callbacks.value = [witnessCb0, witnessCb1] := rfl
    rw [hv] at hcb
    simp only [List.mem_cons, List.not_mem_nil, or_false] at hcb
    rcases hcb with h | h
    · rw [h]; rfl
    · rw [h]; rfl
  have h := on_event_invokes_each_once witnessProvider 7 10 rfl ht
  rw [h]
  rfl

/-- C7: a provider built from a catalog kernel entry has identity
`some entry.guid` and kernel flags `entry.flags`, and both are preserved by
every sequence of keyword/level/trace-flag setters and `add_callback`
calls; `build` then succeeds and returns the provider unchanged.  In
particular the process entry yields the process-subsystem GUID and the
process enable-flag constant. -/
theorem kernel_provider_identity_invariant (R S : Type) (e : KernelProvider)
    (ops : List (ConfigOp R S)) :
    (applyConfigOps (Provider.kernel R S e) ops).guid = some e.guid ∧
    (applyConfigOps (Provider.kernel R S e) ops).flags = e.flags ∧
    (applyConfigOps (Provider.kernel R S e) ops).build
      = Except.ok (applyConfigOps (Provider.kernel R S e) ops) ∧
    (Provider.kernel R S PROCESS_PROVIDER).guid = some (Guid.fromString PROCESS_GUID) ∧
    (Provider.kernel R S PROCESS_PROVIDER).flags = EVENT_TRACE_FLAG_PROCESS := by
  have h := applyConfigOps_preserves ops (Provider.kernel R S e)
  have hg : (applyConfigOps (Provider.kernel R S e) ops).guid = some e.guid := h.1
  refine ⟨hg, h.2, ?_, rfl, rfl⟩
  simp [Provider.build, hg]

/-- C8 counterexample: a panicking consumer is not isolated.  With two
registered consumers of which the first panics, delivery of one record
invokes only the first consumer; the second consumer never receives the
record, and the panic propagates out of `on_event` instead of being caught
and reported. -/
theorem on_event_panic_counterexample :
    panicProvider.on_event 7 0 = (Except.error "boom", [{ id := 0, record := 7 }]) := rfl

/-- C8 amended: a consumer that raises an unexpected failure during one
delivery ends that delivery at the failing consumer: the consumers before
it ran once each, the failing consumer is the last one invoked, every
consumer after it is skipped for that record, and the failure propagates
out of `on_event` into the delivering session thread (it is not caught). -/
theorem on_event_panic_propagates {R S : Type} (p : Provider R S) (record : R) (locator : S)
    (pre post : List (Callback R S)) (bad : Callback R S)
    (hp : p.callbacks.poisoned = false)
    (hlist : p.callbacks.value = pre ++ bad :: post)
    (hpre : ∀ cb ∈ pre, ∀ l, (cb.f record l).isOk = true)
    (hbad : ∀ l, ∃ e, bad.f record l = Except.error e) :
    ∃ e, p.on_event record locator =
      (Except.error e,
       (pre.map fun cb => { id := cb.id, record := record })
         ++ [{ id := bad.id, record := record }]) := by
  rw [on_event_not_poisoned p record locator hp, hlist,
    runCallbacks_append_total record pre (bad :: post) locator hpre]
  obtain ⟨e, he⟩ :=
    hbad (pre.foldl (fun l cb => Callback.runOk cb record l) locator)
  rw [runCallbacks_cons_error record
    (pre.foldl (fun l cb => Callback.runOk cb record l) locator) e bad post he]
  exact ⟨e, rfl⟩

/-- Witness for C8's amended theorem: in the concrete two-consumer provider
whose first consumer panics, delivery stops after that first invocation. -/
theorem on_event_panic_propagates_witness :
    ∃ e, panicProvider.on_event 7 0 = (Except.error e, [{ id := 0, record := 7 }]) := by
  have h := on_event_panic_propagates panicProvider 7 0 [] [secondCb] panickingCb rfl rfl
      (by simp) (fun _ => ⟨"boom", rfl⟩)
  simpa using h

/-- C9 counterexample: `on_event` does not take a read-oriented lock — it
acquires the callback list in write mode, and two write acquisitions are
never compatible, so two concurrent deliveries on the same provider cannot
both hold the lock even when no mutation is in flight. -/
theorem on_event_write_lock_counterexample :
    onEventLockMode = LockMode.write ∧
    LockMode.compatible onEventLockMode onEventLockMode = false := ⟨rfl, rfl⟩

/-- C9 amended: both the delivery entry point `on_event` and `add_callback`
acquire the consumer list in exclusive write mode (the boxed callbacks are
`FnMut` and need mutable access), so concurrent deliveries on the same
provider serialize; only two read acquisitions could coexist. -/
theorem on_event_exclusive_lock :
    onEventLockMode = LockMode.write ∧
    addCallbackLockMode = LockMode.write ∧
    LockMode.compatible onEventLockMode onEventLockMode = false ∧
    LockMode.compatible onEventLockMode addCallbackLockMode = false ∧
    LockMode.compatible LockMode.read LockMode.read = true :=
  ⟨rfl, rfl, rfl, rfl, rfl⟩

/-- C10: when the consumer-list lock is poisoned, `add_callback` silently
discards the new callback and returns the builder exactly as it was — its
return type has no error channel — and `on_event` silently returns without
invoking any consumer, leaving the locator untouched. -/
theorem poisoned_lock_silently_ignored {R S : Type} (p : Provider R S) (cb : Callback R S)
    (record : R) (locator : S) (hp : p.callbacks.poisoned = true) :
    p.add_callback cb = p ∧ p.on_event record locator = (Except.ok locator, []) := by
  have hacq : ∀ mode, RwLock.acquire mode p.callbacks = Except.error () := by
    intro mode
    simp [RwLock.acquire, hp]
  constructor
  · unfold Provider.add_callback
    rw [hacq addCallbackLockMode]
  · unfold Provider.on_event
    rw [hacq onEventLockMode]

/-- Witness for C10: a concrete poisoned provider swallows a registration
and delivers to nobody. -/
theorem poisoned_lock_silently_ignored_witness :
    poisonedProvider.add_callback witnessCb0 = poisonedProvider ∧
    poisonedProvider.on_event 3 4 = (Except.ok 4, []) :=
  poisoned_lock_silently_ignored poisonedProvider witnessCb0 3 4 rfl
